import Mathlib

/-!
Verification development for the flappy-bird-game repository.

This file gives a shallow embedding, in Lean 4, of the parts of the source
relevant to the specification claims:

* src/FlappyBirdGame.js — game constants, pipe generation (generatePipe and
  the in-loop spawn), collision detection (checkCollision) and the per-frame
  update (gameLoop).
* src/lib/SeededRandom.js — the linear congruential generator.
* src/lib/MultiplayerService.js — generateRoomCode and joinRoom.
* src/components/MultiplayerFlappyBirdGame.js — the debounced score sync.

JavaScript numbers are modelled as exact rationals (ℚ); machine integers in
the LCG stay below 2^53 so integer arithmetic there is exact in the source as
well.  Ambient nondeterminism (calls to Math.random()) is modelled by passing
the drawn values as explicit arguments.
-/

/-! Game constants, src/FlappyBirdGame.js lines 32-47. -/

def GRAVITY : ℚ := 1/2

def FLAP_STRENGTH : ℚ := -8

def PIPE_SPEED : ℚ := 3

def PIPE_WIDTH : ℚ := 90

def BIRD_COLLISION_SIZE : ℚ := 40

def BIRD_COLLISION_OFFSET : ℚ := 30

def BIRD_START_X : ℚ := 100

def MIN_TOP_PIPE_HEIGHT : ℚ := 60

def MIN_BOTTOM_PIPE_HEIGHT : ℚ := 60

/-- Dynamic pipe gap, line 91 and lines 182, 224, 318 of
src/FlappyBirdGame.js: at least 180px or 28% of screen height, whichever is
larger. -/
def pipeGap (screenHeight : ℚ) : ℚ := max 180 (screenHeight * (28/100))

/-- Dynamic pipe spacing, line 94 and line 311: 15% of screen width. -/
def pipeSpacing (screenWidth : ℚ) : ℚ := screenWidth * (15/100)

/-- Lower bound of the gap position range (lines 188, 323). -/
def minGapY : ℚ := MIN_TOP_PIPE_HEIGHT

/-- Upper bound of the gap position range before clamping (lines 189, 324). -/
def maxGapY (screenHeight : ℚ) : ℚ :=
  screenHeight - pipeGap screenHeight - MIN_BOTTOM_PIPE_HEIGHT

/-- Clamped upper bound, lines 192, 327: validMaxGapY = max(minGapY, maxGapY). -/
def validMaxGapY (screenHeight : ℚ) : ℚ := max minGapY (maxGapY screenHeight)

/-- Gap top height drawn by generatePipe (line 193) and by the in-loop spawn
(line 328): gapY = r * (validMaxGapY - minGapY) + minGapY, where r is the
value returned by the call to Math.random(), a float in [0, 1). -/
def gapY (screenHeight r : ℚ) : ℚ :=
  r * (validMaxGapY screenHeight - minGapY) + minGapY

/-- A pipe object as built at lines 147-152, 195-200 and 334-339 of
src/FlappyBirdGame.js. -/
structure Pipe where
  id : ℕ
  x : ℚ
  topHeight : ℚ
  passed : Bool
deriving Repr, DecidableEq

set_option linter.unusedVariables false in
/-- The gap placement performed by the game engine, as a function of the seed
it was (per the room record) given and of the stream of values the engine
actually draws from Math.random().  In the source, generatePipe
(src/FlappyBirdGame.js lines 180-205) and the in-loop spawn (lines 316-341)
call Math.random() directly; neither consults the SeededRandom class
(src/lib/SeededRandom.js) nor the random_seed stored on the room, so the
produced gapTopHeight sequence depends only on the ambient Math.random()
stream and the seed argument is dead, exactly as in the source. -/
def engineGapStream (seed : ℤ) (mathRandomDraws : List ℚ) (screenHeight : ℚ) :
    List ℚ :=
  mathRandomDraws.map (gapY screenHeight)

/-! The SeededRandom linear congruential generator, src/lib/SeededRandom.js.
The constructor takes the caller's seed argument and, because a falsy (zero)
seed is replaced, also the value Math.floor(Math.random() * 1000000) that the
source would draw in that case, passed explicitly as fallback. -/

structure SeededRandom where
  seed : ℤ
  current : ℤ
deriving Repr, DecidableEq

/-- Constructor, src/lib/SeededRandom.js lines 9-12:
this.seed = seed || Math.floor(Math.random() * 1000000);
this.current = this.seed.  For an integer argument, the only falsy value is
0, so seed 0 is replaced by the ambient fallback draw. -/
def mkSeededRandom (seedArg fallback : ℤ) : SeededRandom :=
  let s := if seedArg = 0 then fallback else seedArg
  { seed := s, current := s }

/-- One step of the generator, src/lib/SeededRandom.js lines 17-22:
current = (1664525 * current + 1013904223) % 0x100000000, returning
current / 0x100000000.  JavaScript's % truncates toward zero, which is
Int.tmod. -/
def SeededRandom.next (g : SeededRandom) : SeededRandom × ℚ :=
  let c := Int.tmod (1664525 * g.current + 1013904223) 4294967296
  ({ seed := g.seed, current := c }, (c : ℚ) / 4294967296)

/-- Reset, src/lib/SeededRandom.js lines 33-35: current = seed. -/
def SeededRandom.reset (g : SeededRandom) : SeededRandom :=
  { seed := g.seed, current := g.seed }

/-- The first n outputs of the generator. -/
def SeededRandom.outputs : ℕ → SeededRandom → List ℚ
  | 0, _ => []
  | n + 1, g => (g.next).2 :: SeededRandom.outputs n (g.next).1

/-- The generator after n calls to next(). -/
def SeededRandom.advance : ℕ → SeededRandom → SeededRandom
  | 0, g => g
  | n + 1, g => SeededRandom.advance n (g.next).1

theorem seededRandom_advance_seed (n : ℕ) (g : SeededRandom) :
    (SeededRandom.advance n g).seed = g.seed := by
  induction n generalizing g with
  | zero => rfl
  | succ n ih => exact (ih _).trans rfl

/-! Collision detection, src/FlappyBirdGame.js lines 212-258. -/

/-- The per-pipe part of the collision loop body, lines 228-254: horizontal
overlap (lines 231-234) and, inside it, vertical overlap with the top pipe
(line 241) or with the bottom pipe (lines 249-250). -/
def collidesWithPipe (screenHeight collisionX collisionY : ℚ) (p : Pipe) : Bool :=
  let horizontalOverlap :=
    decide (collisionX + BIRD_COLLISION_SIZE > p.x) &&
    decide (collisionX < p.x + PIPE_WIDTH)
  let topOverlap :=
    decide (collisionY + BIRD_COLLISION_SIZE > 0) &&
    decide (collisionY < p.topHeight)
  let bottomOverlap :=
    decide (collisionY < screenHeight) &&
    decide (collisionY + BIRD_COLLISION_SIZE > p.topHeight + pipeGap screenHeight)
  horizontalOverlap && (topOverlap || bottomOverlap)

/-- checkCollision, src/FlappyBirdGame.js lines 212-258.  The collision box is
the bird position shifted by BIRD_COLLISION_OFFSET (lines 215-216); screen
bounds are checked first (line 219), then each pipe. -/
def checkCollision (screenHeight birdPosX birdPosY : ℚ) (pipes : List Pipe) : Bool :=
  let collisionX := birdPosX + BIRD_COLLISION_OFFSET
  let collisionY := birdPosY + BIRD_COLLISION_OFFSET
  if collisionY ≤ 0 ∨ collisionY + BIRD_COLLISION_SIZE ≥ screenHeight then
    true
  else
    pipes.any (collidesWithPipe screenHeight collisionX collisionY)

/-! The game loop, src/FlappyBirdGame.js lines 269-360. -/

/-- Game phases, line 75: gameState is one of the strings here named start
(the spec calls it Ready), playing, gameOver. -/
inductive GamePhase
  | start
  | playing
  | gameOver
deriving Repr, DecidableEq

/-- The component state touched by the game loop. -/
structure GameState where
  phase : GamePhase
  birdX : ℚ
  birdY : ℚ
  birdVel : ℚ
  pipes : List Pipe
  score : ℕ
  nextPipeId : ℕ
deriving Repr, DecidableEq

/-- The body of the pipes.map callback in the game loop, lines 287-299: the
pipe moves left by PIPE_SPEED, and if it is not yet passed and its right edge
is strictly left of the bird's x (line 293), passed is set and the score is
incremented (returned here as the second component, 1 or 0). -/
def stepPipe (birdX : ℚ) (p : Pipe) : Pipe × ℕ :=
  let newX := p.x - PIPE_SPEED
  if p.passed = false ∧ p.x + PIPE_WIDTH < birdX then
    ({ p with x := newX, passed := true }, 1)
  else
    ({ p with x := newX }, 0)

/-- Math.max over the pipe x coordinates, line 307, with screenWidth as the
default for an empty list (line 308). -/
def rightmostPipeX (screenWidth : ℚ) : List Pipe → ℚ
  | [] => screenWidth
  | p :: ps => (ps.map Pipe.x).foldl max p.x

/-- One call of gameLoop, src/FlappyBirdGame.js lines 269-360, with the value
drawn by Math.random() at line 328 (used only if a pipe is spawned) passed as
r.  In order: early return unless playing (line 270); gravity (line 279);
position integration (line 283); pipe movement and scoring (lines 286-299);
off-screen removal (line 302); conditional spawn (lines 306-341); collision
check on the updated pipes setting gameOver (lines 344-347). -/
def gameLoop (screenWidth screenHeight r : ℚ) (s : GameState) : GameState :=
  if s.phase ≠ GamePhase.playing then s
  else
    let newVelocity := s.birdVel + GRAVITY
    let newY := s.birdY + newVelocity
    let stepped := s.pipes.map (stepPipe s.birdX)
    let credited := (stepped.map Prod.snd).sum
    let moved := stepped.map Prod.fst
    let kept := moved.filter (fun p => decide (p.x + PIPE_WIDTH > 0))
    let rightmost := rightmostPipeX screenWidth kept
    let doSpawn :=
      rightmost ≤ screenWidth - pipeSpacing screenWidth ∧ kept.length < 10
    let newPipes :=
      if doSpawn then
        kept ++ [{ id := s.nextPipeId, x := rightmost + pipeSpacing screenWidth,
                   topHeight := gapY screenHeight r, passed := false }]
      else kept
    let newNextId := if doSpawn then s.nextPipeId + 1 else s.nextPipeId
    let collided := checkCollision screenHeight s.birdX newY newPipes
    { phase := if collided then GamePhase.gameOver else GamePhase.playing
      birdX := s.birdX
      birdY := newY
      birdVel := newVelocity
      pipes := newPipes
      score := s.score + credited
      nextPipeId := newNextId }

/-- Iterated pipe stepping: the pipe after n ticks of the map callback. -/
def pipeRun (birdX : ℚ) : ℕ → Pipe → Pipe
  | 0, p => p
  | n + 1, p => pipeRun birdX n (stepPipe birdX p).1

/-- Total score credited to one pipe over n ticks of the map callback. -/
def creditCount (birdX : ℚ) : ℕ → Pipe → ℕ
  | 0, _ => 0
  | n + 1, p => (stepPipe birdX p).2 + creditCount birdX n (stepPipe birdX p).1

/-! Room codes and joinRoom, src/lib/MultiplayerService.js. -/

/-- The room code alphabet, src/lib/MultiplayerService.js line 35. -/
def roomCodeChars : String := "ABCDEFGHJKLMNPQRSTUVWXYZ23456789"

/-- chars.charAt(Math.floor(r * chars.length)) for one loop iteration of
generateRoomCode (line 38), with r the value drawn from Math.random(). -/
def roomCodeChar (r : ℚ) : Char :=
  roomCodeChars.toList.getD (Int.toNat ⌊r * (roomCodeChars.length : ℚ)⌋) 'A'

/-- generateRoomCode, src/lib/MultiplayerService.js lines 34-41, with the six
Math.random() draws passed explicitly. -/
def generateRoomCode (draws : List ℚ) : String :=
  String.mk (draws.map roomCodeChar)

/-- Room states, the state column of the rooms table ('waiting', 'starting',
'playing', 'finished'). -/
inductive RoomState
  | waiting
  | starting
  | playing
  | finished
deriving Repr, DecidableEq

/-- A row of the rooms table, as read by joinRoom. -/
structure Room where
  id : ℕ
  code : String
  state : RoomState
  hostId : String
deriving Repr, DecidableEq

/-- A row of the room_players table, restricted to the columns joinRoom
reasons about (room_id, user_id). -/
structure RoomPlayerRow where
  roomId : ℕ
  userId : String
deriving Repr, DecidableEq

/-- The observable result of joinRoom: success carrying the found room's id,
or one of the two failure messages of lines 94 and 107. -/
inductive JoinResult
  | ok (roomId : ℕ)
  | notFound
  | roomFull
deriving Repr, DecidableEq

/-- JavaScript's toUpperCase on the ASCII room-code strings: uppercase each
character. -/
def jsToUpperCase (s : String) : String :=
  String.mk (s.toList.map Char.toUpper)

/-- The rooms-table query of joinRoom, lines 85-90: rows whose code equals the
uppercased argument and whose state is waiting, limited to one row. -/
def findWaitingRoom (rooms : List Room) (code : String) : Option Room :=
  (rooms.filter (fun rm =>
    rm.code = jsToUpperCase code ∧ rm.state = RoomState.waiting)).head?

/-- The number of room_players rows for the given room id (lines 100-103). -/
def roomPlayerCount (players : List RoomPlayerRow) (roomId : ℕ) : ℕ :=
  (players.filter (fun p => p.roomId = roomId)).length

set_option linter.unusedVariables false in
/-- joinRoom, src/lib/MultiplayerService.js lines 79-125.  If no waiting room
matches the uppercased code, the Room-not-found failure is returned (lines
93-95); otherwise, if the room already holds 5 or more players, the
Room-is-full failure is returned (lines 106-108); otherwise joinRoom succeeds
with the room.  The source then checks whether the caller is already among
the fetched player rows (line 111), but both the already-present branch
(lines 112-116) and the fall-through (lines 118-120) return the identical
success value, so the result does not depend on the caller's membership (and
the fetched rows were in fact projected to their id column alone at line
102). -/
def joinRoom (rooms : List Room) (players : List RoomPlayerRow)
    (code : String) (userId : String) : JoinResult :=
  match findWaitingRoom rooms code with
  | none => JoinResult.notFound
  | some room =>
      if 5 ≤ roomPlayerCount players room.id then JoinResult.roomFull
      else JoinResult.ok room.id

/-! Debounced score broadcast, src/components/MultiplayerFlappyBirdGame.js
lines 131-153 (syncScore).  Each call clears any pending timeout and
schedules a send of its own score value 300ms later; a scheduled send
therefore fires exactly when no further call arrives strictly before its
deadline.  A call timeline is a list of (time, score) pairs in call order;
the result is the list of (send time, score) pairs actually broadcast. -/

def debounceSends : List (ℚ × ℤ) → List (ℚ × ℤ)
  | [] => []
  | p :: rest =>
    match rest with
    | [] => [(p.1 + 300, p.2)]
    | q :: _ =>
      if q.1 < p.1 + 300 then debounceSends rest
      else (p.1 + 300, p.2) :: debounceSends rest

/-! Claim theorems. -/

/-- C1 (code bug witness): the source stores a shared random_seed on the room
and ships SeededRandom for synchronized pipe generation, but generatePipe and
the in-loop spawn draw from Math.random(), so the gapTopHeight stream is a
function of the ambient Math.random() draws alone: two engines given the same
seed 12345 but whose Math.random() happens to return 0 and 1/2 respectively
at the first spawn produce gapTopHeight 60 and 288 — not byte-identical, as
the claim and the spec require. -/
theorem engineGapStream_ignores_seed :
    engineGapStream 12345 [0] 800 = [60] ∧
    engineGapStream 12345 [1/2] 800 = [288] ∧
    engineGapStream 12345 [0] 800 ≠ engineGapStream 12345 [1/2] 800 := by
  refine ⟨?_, ?_, ?_⟩ <;>
    norm_num [engineGapStream, gapY, validMaxGapY, minGapY, maxGapY, pipeGap,
      MIN_TOP_PIPE_HEIGHT, MIN_BOTTOM_PIPE_HEIGHT, max_def]

/-- C7 (amended): for every nonzero integer seed, two SeededRandom instances
constructed with that seed produce identical output sequences for every
length n, whatever fallback values the ambient Math.random() would have
supplied; and for every instance (any seed, any number m of next() calls
already made), reset() followed by n calls to next() reproduces the original
first n outputs exactly. -/
theorem seededRandom_reproducibility (s fb1 fb2 : ℤ) (n m : ℕ) :
    (s ≠ 0 → SeededRandom.outputs n (mkSeededRandom s fb1) =
      SeededRandom.outputs n (mkSeededRandom s fb2)) ∧
    SeededRandom.outputs n
        ((SeededRandom.advance m (mkSeededRandom s fb1)).reset) =
      SeededRandom.outputs n (mkSeededRandom s fb1) := by
  constructor
  · intro hs
    simp [mkSeededRandom, hs]
  · have h1 : (SeededRandom.advance m (mkSeededRandom s fb1)).reset =
        mkSeededRandom s fb1 := by
      unfold SeededRandom.reset
      rw [seededRandom_advance_seed]
      simp [mkSeededRandom]
    rw [h1]

/-- Witness for C7's theorem at seed 12345, fallbacks 1 and 2, n = 5, m = 3. -/
theorem seededRandom_reproducibility_witness :
    SeededRandom.outputs 5 (mkSeededRandom 12345 1) =
      SeededRandom.outputs 5 (mkSeededRandom 12345 2) ∧
    SeededRandom.outputs 5
        ((SeededRandom.advance 3 (mkSeededRandom 12345 1)).reset) =
      SeededRandom.outputs 5 (mkSeededRandom 12345 1) :=
  ⟨(seededRandom_reproducibility 12345 1 2 5 3).1 (by decide),
   (seededRandom_reproducibility 12345 1 2 5 3).2⟩

/-- Counterexample to C7 as stated: for seed 0 — an integer seed — the
constructor discards the seed (it is falsy) and uses the ambient draw
Math.floor(Math.random() * 1000000) instead, so two instances constructed
with seed 0 whose ambient draws are 7 and 8 already differ in their first
output. -/
theorem seededRandom_seed_zero_diverges :
    SeededRandom.outputs 1 (mkSeededRandom 0 7) ≠
      SeededRandom.outputs 1 (mkSeededRandom 0 8) := by
  have h1 : Int.tmod 1025555898 4294967296 = 1025555898 := by decide
  have h2 : Int.tmod 1027220423 4294967296 = 1027220423 := by decide
  simp [SeededRandom.outputs, SeededRandom.next, mkSeededRandom, h1, h2]
  norm_num

/-- C10: the constructor treats seed 0 as absent: the stored seed is the
ambient fallback draw, not 0; any nonzero seed is stored as given; hence two
seed-0 instances can produce different sequences, while equal nonzero seeds
produce equal sequences regardless of the fallback. -/
theorem seededRandom_zero_seed_replaced :
    (∀ fb : ℤ, (mkSeededRandom 0 fb).seed = fb) ∧
    (∀ s fb : ℤ, s ≠ 0 → (mkSeededRandom s fb).seed = s) ∧
    SeededRandom.outputs 1 (mkSeededRandom 0 3) ≠
      SeededRandom.outputs 1 (mkSeededRandom 0 4) ∧
    (∀ (s fb fb2 : ℤ) (n : ℕ), s ≠ 0 →
      SeededRandom.outputs n (mkSeededRandom s fb) =
        SeededRandom.outputs n (mkSeededRandom s fb2)) := by
  refine ⟨fun fb => by simp [mkSeededRandom],
          fun s fb hs => by simp [mkSeededRandom, hs],
          ?_,
          fun s fb fb2 n hs => by simp [mkSeededRandom, hs]⟩
  have h1 : Int.tmod 1018897798 4294967296 = 1018897798 := by decide
  have h2 : Int.tmod 1020562323 4294967296 = 1020562323 := by decide
  simp [SeededRandom.outputs, SeededRandom.next, mkSeededRandom, h1, h2]
  norm_num

/-- Witness for C10's theorem at fallback 11, seed 6. -/
theorem seededRandom_zero_seed_replaced_witness :
    (mkSeededRandom 0 11).seed = 11 ∧
    (mkSeededRandom 6 11).seed = 6 ∧
    SeededRandom.outputs 2 (mkSeededRandom 6 1) =
      SeededRandom.outputs 2 (mkSeededRandom 6 2) :=
  ⟨seededRandom_zero_seed_replaced.1 11,
   seededRandom_zero_seed_replaced.2.1 6 11 (by decide),
   seededRandom_zero_seed_replaced.2.2.2 6 1 2 2 (by decide)⟩

/-- C2 (amended): gravity is applied exactly in the playing phase: a tick in
playing adds the fixed GRAVITY increment to the velocity, and a tick in any
other phase (start, or gameOver — the game has no separate Impact phase, the
loop halts as soon as gameState leaves playing) leaves the whole state, in
particular the velocity, unchanged. -/
theorem gravity_exactly_in_playing (w h r : ℚ) (s : GameState) :
    (s.phase = GamePhase.playing →
      (gameLoop w h r s).birdVel = s.birdVel + GRAVITY) ∧
    (s.phase ≠ GamePhase.playing → gameLoop w h r s = s) := by
  constructor
  · intro hp
    simp [gameLoop, hp]
  · intro hp
    simp [gameLoop, hp]

/-- Witness for C2's theorem: a playing state gains GRAVITY, a gameOver state
is left untouched. -/
theorem gravity_exactly_in_playing_witness :
    (gameLoop 400 800 0 (GameState.mk GamePhase.playing 100 200 0 [] 0 0)).birdVel
      = (GameState.mk GamePhase.playing 100 200 0 [] 0 0).birdVel + GRAVITY ∧
    gameLoop 400 800 0 (GameState.mk GamePhase.gameOver 100 200 5 [] 0 0)
      = GameState.mk GamePhase.gameOver 100 200 5 [] 0 0 :=
  ⟨(gravity_exactly_in_playing 400 800 0 _).1 rfl,
   (gravity_exactly_in_playing 400 800 0 _).2 (by decide)⟩

/-- Counterexample to C2 as stated: a tick in the gameOver phase — the phase
the bird is in right after a collision, while the spec's Impact phase would
still have it falling — does not add GRAVITY to the velocity: the loop body
returns without touching the state whenever gameState is not playing. -/
theorem gravity_pauses_when_not_playing :
    (GameState.mk GamePhase.gameOver 100 200 5 [] 0 0).phase ≠ GamePhase.start ∧
    (gameLoop 400 800 0 (GameState.mk GamePhase.gameOver 100 200 5 [] 0 0)).birdVel
      ≠ (GameState.mk GamePhase.gameOver 100 200 5 [] 0 0).birdVel + GRAVITY := by
  constructor
  · decide
  · simp [gameLoop, GRAVITY]

theorem stepPipe_passed_mono (birdX : ℚ) (p : Pipe) (hp : p.passed = true) :
    (stepPipe birdX p).1.passed = true ∧ (stepPipe birdX p).2 = 0 := by
  simp [stepPipe, hp]

theorem creditCount_of_passed (birdX : ℚ) (n : ℕ) (p : Pipe)
    (hp : p.passed = true) : creditCount birdX n p = 0 := by
  induction n generalizing p with
  | zero => rfl
  | succ n ih =>
    obtain ⟨h1, h2⟩ := stepPipe_passed_mono birdX p hp
    simp [creditCount, h2, ih _ h1]

theorem creditCount_le_one (birdX : ℚ) (n : ℕ) (p : Pipe) :
    creditCount birdX n p ≤ 1 := by
  induction n generalizing p with
  | zero => exact Nat.zero_le 1
  | succ n ih =>
    by_cases hc : p.passed = false ∧ p.x + PIPE_WIDTH < birdX
    · have hstep : (stepPipe birdX p).1.passed = true ∧ (stepPipe birdX p).2 = 1 := by
        simp [stepPipe, hc.1, hc.2]
      rw [creditCount, hstep.2, creditCount_of_passed birdX n _ hstep.1]
    · have hstep : (stepPipe birdX p).2 = 0 := by
        simp only [stepPipe]
        rw [if_neg hc]
      rw [creditCount, hstep]
      simpa using ih (stepPipe birdX p).1

/-- C3: each pipe is credited at most once over any number of ticks of the
game-loop map callback; an already-passed pipe is never credited again; the
credit happens exactly at the first tick at which the pipe's trailing edge
(x + PIPE_WIDTH) is strictly left of the bird's x, which also marks the pipe
passed; and a tick with the bird exactly at the trailing edge credits
nothing. -/
theorem score_credited_once (birdX : ℚ) (p : Pipe) (n : ℕ) :
    creditCount birdX n p ≤ 1 ∧
    (p.passed = true → creditCount birdX n p = 0) ∧
    (p.passed = false → p.x + PIPE_WIDTH < birdX →
      (stepPipe birdX p).2 = 1 ∧ (stepPipe birdX p).1.passed = true) ∧
    (p.x + PIPE_WIDTH = birdX → (stepPipe birdX p).2 = 0) := by
  refine ⟨creditCount_le_one birdX n p, creditCount_of_passed birdX n p, ?_, ?_⟩
  · intro hfalse hlt
    constructor <;> simp [stepPipe, hfalse, hlt]
  · intro heq
    have : ¬ (p.passed = false ∧ p.x + PIPE_WIDTH < birdX) := by
      rintro ⟨-, hlt⟩
      exact absurd heq (ne_of_lt hlt)
    simp only [stepPipe]
    rw [if_neg this]

/-- Witness for C3's theorem: a pipe just left of the bird is credited once
and marked passed; a passed pipe earns nothing over three further ticks; a
pipe whose trailing edge sits exactly at the bird's x earns nothing. -/
theorem score_credited_once_witness :
    creditCount 100 3 (Pipe.mk 0 5 100 false) ≤ 1 ∧
    creditCount 100 3 (Pipe.mk 1 5 100 true) = 0 ∧
    ((stepPipe 100 (Pipe.mk 2 5 100 false)).2 = 1 ∧
      (stepPipe 100 (Pipe.mk 2 5 100 false)).1.passed = true) ∧
    (stepPipe 100 (Pipe.mk 3 10 100 false)).2 = 0 :=
  ⟨(score_credited_once 100 (Pipe.mk 0 5 100 false) 3).1,
   (score_credited_once 100 (Pipe.mk 1 5 100 true) 3).2.1 rfl,
   (score_credited_once 100 (Pipe.mk 2 5 100 false) 3).2.2.1 rfl
     (by norm_num [PIPE_WIDTH]),
   (score_credited_once 100 (Pipe.mk 3 10 100 false) 3).2.2.2
     (by norm_num [PIPE_WIDTH])⟩

theorem collidesWithPipe_iff (h cx cy : ℚ) (p : Pipe) :
    collidesWithPipe h cx cy p = true ↔
      ((cx + BIRD_COLLISION_SIZE > p.x ∧ cx < p.x + PIPE_WIDTH) ∧
       ((cy + BIRD_COLLISION_SIZE > 0 ∧ cy < p.topHeight) ∨
        (cy < h ∧ cy + BIRD_COLLISION_SIZE > p.topHeight + pipeGap h))) := by
  simp [collidesWithPipe, Bool.and_eq_true, Bool.or_eq_true, decide_eq_true_eq]

/-- C4: if every pipe is in a valid configuration (top pipe at least the
minimum top height, bottom pipe at least the minimum bottom height) and the
bird's collision footprint lies entirely within each pipe's gap band
(vertically within the closed interval from gapTopHeight to gapTopHeight +
gap minus the footprint size), then checkCollision reports no collision; and
a pipe collision holds precisely when horizontal AND vertical overlap with
the upper or lower rectangle hold simultaneously. -/
theorem no_collision_inside_gap (h posX posY : ℚ) (pipes : List Pipe)
    (hne : pipes ≠ [])
    (hin : ∀ p ∈ pipes,
      MIN_TOP_PIPE_HEIGHT ≤ p.topHeight ∧
      p.topHeight + pipeGap h + MIN_BOTTOM_PIPE_HEIGHT ≤ h ∧
      p.topHeight ≤ posY + BIRD_COLLISION_OFFSET ∧
      posY + BIRD_COLLISION_OFFSET + BIRD_COLLISION_SIZE ≤
        p.topHeight + pipeGap h) :
    checkCollision h posX posY pipes = false ∧
    (∀ (cx cy : ℚ) (q : Pipe), collidesWithPipe h cx cy q = true ↔
      ((cx + BIRD_COLLISION_SIZE > q.x ∧ cx < q.x + PIPE_WIDTH) ∧
       ((cy + BIRD_COLLISION_SIZE > 0 ∧ cy < q.topHeight) ∨
        (cy < h ∧ cy + BIRD_COLLISION_SIZE > q.topHeight + pipeGap h)))) := by
  refine ⟨?_, fun cx cy q => collidesWithPipe_iff h cx cy q⟩
  obtain ⟨p0, hp0⟩ := List.exists_mem_of_ne_nil pipes hne
  obtain ⟨ha1, ha2, ha3, ha4⟩ := hin p0 hp0
  have htop : MIN_TOP_PIPE_HEIGHT = (60 : ℚ) := rfl
  have hbot : MIN_BOTTOM_PIPE_HEIGHT = (60 : ℚ) := rfl
  have hsize : BIRD_COLLISION_SIZE = (40 : ℚ) := rfl
  have hscreen : ¬ (posY + BIRD_COLLISION_OFFSET ≤ 0 ∨
      posY + BIRD_COLLISION_OFFSET + BIRD_COLLISION_SIZE ≥ h) := by
    rw [htop] at ha1
    rw [hbot] at ha2
    push_neg
    constructor
    · linarith
    · linarith
  simp only [checkCollision]
  rw [if_neg hscreen]
  refine List.any_eq_false.mpr ?_
  intro q hq
  obtain ⟨hb1, hb2, hb3, hb4⟩ := hin q hq
  intro htrue
  rcases (collidesWithPipe_iff h (posX + BIRD_COLLISION_OFFSET)
      (posY + BIRD_COLLISION_OFFSET) q).mp htrue with ⟨-, hv⟩
  rcases hv with ⟨-, hlt⟩ | ⟨-, hgt⟩
  · exact absurd hlt (not_lt.mpr hb3)
  · exact absurd hgt (not_lt.mpr hb4)

/-- Witness for C4's theorem: bird footprint (y 330..370) inside the gap band
(200..424) of a pipe it horizontally overlaps, on an 800px screen: no
collision is reported. -/
theorem no_collision_inside_gap_witness :
    checkCollision 800 100 300 [Pipe.mk 0 120 200 false] = false :=
  (no_collision_inside_gap 800 100 300 [Pipe.mk 0 120 200 false]
    (by simp)
    (by
      intro q hq
      rw [List.mem_singleton] at hq
      subst hq
      refine ⟨?_, ?_, ?_, ?_⟩ <;>
        norm_num [MIN_TOP_PIPE_HEIGHT, MIN_BOTTOM_PIPE_HEIGHT, pipeGap,
          BIRD_COLLISION_OFFSET, BIRD_COLLISION_SIZE, max_def])).1

/-- C5 (amended): whenever the screen is tall enough to accommodate the gap
plus both minimum clearances (pipeGap + 60 + 60 ≤ screenHeight — true for
every screenHeight ≥ 300), every gap position drawn with a Math.random()
value r in [0, 1) leaves the top pipe at least MIN_TOP_PIPE_HEIGHT and the
bottom pipe at least MIN_BOTTOM_PIPE_HEIGHT, where the gap size is the larger
of 180 and 28% of the screen height. -/
theorem pipe_gap_clearance (h r : ℚ) (hr0 : 0 ≤ r) (hr1 : r < 1)
    (hh : pipeGap h + MIN_TOP_PIPE_HEIGHT + MIN_BOTTOM_PIPE_HEIGHT ≤ h) :
    MIN_TOP_PIPE_HEIGHT ≤ gapY h r ∧
    MIN_BOTTOM_PIPE_HEIGHT ≤ h - gapY h r - pipeGap h ∧
    pipeGap h = max 180 (h * (28/100)) := by
  have htop : MIN_TOP_PIPE_HEIGHT = (60 : ℚ) := rfl
  have hbot : MIN_BOTTOM_PIPE_HEIGHT = (60 : ℚ) := rfl
  rw [htop, hbot] at hh ⊢
  have hA : (0 : ℚ) ≤ h - pipeGap h - 120 := by linarith
  have hmax : validMaxGapY h = h - pipeGap h - 60 := by
    simp only [validMaxGapY, maxGapY, minGapY, MIN_TOP_PIPE_HEIGHT,
      MIN_BOTTOM_PIPE_HEIGHT]
    exact max_eq_right (by linarith)
  have hmul0 : 0 ≤ r * (h - pipeGap h - 120) := mul_nonneg hr0 hA
  have hmul1 : r * (h - pipeGap h - 120) ≤ h - pipeGap h - 120 :=
    mul_le_of_le_one_left hA hr1.le
  have hexpand : h - pipeGap h - 60 - 60 = h - pipeGap h - 120 := by ring
  refine ⟨?_, ?_, rfl⟩
  · simp only [gapY, hmax, minGapY, MIN_TOP_PIPE_HEIGHT, hexpand]
    linarith
  · simp only [gapY, hmax, minGapY, MIN_TOP_PIPE_HEIGHT, hexpand]
    linarith

/-- Witness for C5's theorem on an 800px screen with r = 1/2: the gap top is
288, leaving a 288px top pipe and a 288px bottom pipe, both at least 60. -/
theorem pipe_gap_clearance_witness :
    MIN_TOP_PIPE_HEIGHT ≤ gapY 800 (1/2) ∧
    MIN_BOTTOM_PIPE_HEIGHT ≤ 800 - gapY 800 (1/2) - pipeGap 800 ∧
    pipeGap 800 = max 180 (800 * (28/100)) :=
  pipe_gap_clearance 800 (1/2) (by norm_num) (by norm_num)
    (by norm_num [pipeGap, MIN_TOP_PIPE_HEIGHT, MIN_BOTTOM_PIPE_HEIGHT, max_def])

/-- Counterexample to C5 as stated: on a 250px-high screen (smaller than the
gap plus the two minimum clearances) the clamped range collapses to the
single point 60, and the draw r = 0 yields gapTopHeight 60 with a bottom pipe
of only 250 - 60 - 180 = 10px, violating the minimum bottom clearance of 60. -/
theorem pipe_gap_clearance_fails_small_screen :
    gapY 250 0 = 60 ∧
    250 - gapY 250 0 - pipeGap 250 = 10 ∧
    ¬ (MIN_BOTTOM_PIPE_HEIGHT ≤ 250 - gapY 250 0 - pipeGap 250) := by
  norm_num [gapY, validMaxGapY, maxGapY, minGapY, pipeGap,
    MIN_TOP_PIPE_HEIGHT, MIN_BOTTOM_PIPE_HEIGHT, max_def]

/-- C6 (amended): joinRoom fails with the not-found result exactly when no
room with the (uppercased) code is in waiting state; given such a room, it
fails with the room-full result exactly when the room already has at least 5
player rows, and below that cap it succeeds with the room; and its result
never depends on the calling user at all — so a re-join by an existing
participant below the cap returns the same success as their original join
(idempotent), while at the cap even an existing participant receives the
room-full failure, because the capacity check precedes the membership check. -/
theorem joinRoom_contract (rooms : List Room) (players : List RoomPlayerRow)
    (code uid : String) :
    (joinRoom rooms players code uid = JoinResult.notFound ↔
      findWaitingRoom rooms code = none) ∧
    (∀ rm, findWaitingRoom rooms code = some rm →
      ((joinRoom rooms players code uid = JoinResult.roomFull ↔
        5 ≤ roomPlayerCount players rm.id) ∧
       (roomPlayerCount players rm.id < 5 →
        joinRoom rooms players code uid = JoinResult.ok rm.id))) ∧
    (∀ uid2, joinRoom rooms players code uid =
      joinRoom rooms players code uid2) := by
  refine ⟨?_, ?_, fun uid2 => rfl⟩
  · cases hfind : findWaitingRoom rooms code with
    | none => simp [joinRoom, hfind]
    | some rm0 =>
      by_cases hc : 5 ≤ roomPlayerCount players rm0.id
      · simp [joinRoom, hfind, hc]
      · simp [joinRoom, hfind, hc]
  · intro rm hrm
    constructor
    · by_cases hc : 5 ≤ roomPlayerCount players rm.id
      · simp [joinRoom, hrm, hc]
      · simp [joinRoom, hrm, hc]
    · intro hlt
      have hc : ¬ 5 ≤ roomPlayerCount players rm.id := not_le.mpr hlt
      simp [joinRoom, hrm, hc]

/-- Witness for C6's theorem: a waiting room ABCDEF with two of five seats
taken; the existing participant u1 re-joins with the lowercased code and gets
the same success as a fresh join. -/
theorem joinRoom_contract_witness :
    joinRoom [Room.mk 0 "ABCDEF" RoomState.waiting "host"]
      [RoomPlayerRow.mk 0 "u1", RoomPlayerRow.mk 0 "u2"] "abcdef" "u1" =
      JoinResult.ok 0 :=
  ((joinRoom_contract [Room.mk 0 "ABCDEF" RoomState.waiting "host"]
      [RoomPlayerRow.mk 0 "u1", RoomPlayerRow.mk 0 "u2"] "abcdef" "u1").2.1
    (Room.mk 0 "ABCDEF" RoomState.waiting "host") (by decide)).2 (by decide)

/-- Counterexample to C6 as stated: u1 is already a participant of the
waiting room ABCDEF, which holds 5 players; joinRoom for u1 returns the
room-full failure instead of the existing membership, because the capacity
check runs before the membership check. -/
theorem joinRoom_full_rejects_existing_participant :
    RoomPlayerRow.mk 0 "u1" ∈
      [RoomPlayerRow.mk 0 "u1", RoomPlayerRow.mk 0 "u2", RoomPlayerRow.mk 0 "u3",
       RoomPlayerRow.mk 0 "u4", RoomPlayerRow.mk 0 "u5"] ∧
    joinRoom [Room.mk 0 "ABCDEF" RoomState.waiting "host"]
      [RoomPlayerRow.mk 0 "u1", RoomPlayerRow.mk 0 "u2", RoomPlayerRow.mk 0 "u3",
       RoomPlayerRow.mk 0 "u4", RoomPlayerRow.mk 0 "u5"] "ABCDEF" "u1" =
      JoinResult.roomFull ∧
    JoinResult.roomFull ≠ JoinResult.ok 0 := by
  decide

/-- C9 (amended): the room-code alphabet has exactly 32 characters — the
uppercase letters and digits minus the visually ambiguous 0, O, I and 1 (the
claim's count of 33 is off by one); every generated code has one character
per Math.random() draw (six draws in the source loop, hence 6 characters),
each drawn from that alphabet; and joinRoom sees the code only through
toUpperCase, so a lowercased code finds the same room. -/
theorem roomCode_format :
    roomCodeChars.length = 32 ∧
    (∀ c ∈ roomCodeChars.toList,
      (c ≠ '0' ∧ c ≠ 'O' ∧ c ≠ 'I' ∧ c ≠ '1') ∧ (c.isUpper ∨ c.isDigit)) ∧
    (∀ draws : List ℚ, (generateRoomCode draws).length = draws.length) ∧
    (∀ draws : List ℚ, (∀ r ∈ draws, 0 ≤ r ∧ r < 1) →
      ∀ c ∈ (generateRoomCode draws).toList, c ∈ roomCodeChars.toList) ∧
    (∀ (rooms : List Room) (players : List RoomPlayerRow) (uid c1 c2 : String),
      jsToUpperCase c1 = jsToUpperCase c2 →
      joinRoom rooms players c1 uid = joinRoom rooms players c2 uid) ∧
    jsToUpperCase "abcdef" = "ABCDEF" := by
  refine ⟨by decide, by decide, ?_, ?_, ?_, by decide⟩
  · intro draws
    simp [generateRoomCode, String.length]
  · intro draws hdraws c hc
    have hlist : (generateRoomCode draws).toList = draws.map roomCodeChar := rfl
    rw [hlist] at hc
    rcases List.mem_map.mp hc with ⟨r, hr, hrc⟩
    obtain ⟨hr0, hr1⟩ := hdraws r hr
    subst hrc
    have hlen : roomCodeChars.length = 32 := by decide
    have hlenList : roomCodeChars.toList.length = 32 := by decide
    have hfl0 : 0 ≤ ⌊r * (roomCodeChars.length : ℚ)⌋ := by
      rw [hlen]
      exact Int.floor_nonneg.mpr (by positivity)
    have hfl1 : ⌊r * (roomCodeChars.length : ℚ)⌋ < 32 := by
      rw [hlen]
      refine Int.floor_lt.mpr ?_
      push_cast
      nlinarith
    have hidx : Int.toNat ⌊r * (roomCodeChars.length : ℚ)⌋ <
        roomCodeChars.toList.length := by
      rw [hlenList]
      omega
    rw [roomCodeChar, List.getD_eq_getElem roomCodeChars.toList 'A' hidx]
    exact List.getElem_mem hidx
  · intro rooms players uid c1 c2 hupper
    unfold joinRoom findWaitingRoom
    rw [hupper]

/-- Witness for C9's theorem: six draws of 0 produce the six-character code
AAAAAA whose characters all lie in the alphabet, and joining with a
lowercased code consults the same rooms as with the uppercase one. -/
theorem roomCode_format_witness :
    (generateRoomCode [0, 0, 0, 0, 0, 0]).length = 6 ∧
    (∀ c ∈ (generateRoomCode [0, 0, 0, 0, 0, 0]).toList,
      c ∈ roomCodeChars.toList) ∧
    joinRoom [Room.mk 0 "ABCDEF" RoomState.waiting "host"] [] "abcdef" "u" =
      joinRoom [Room.mk 0 "ABCDEF" RoomState.waiting "host"] [] "ABCDEF" "u" :=
  ⟨roomCode_format.2.2.1 [0, 0, 0, 0, 0, 0],
   roomCode_format.2.2.2.1 [0, 0, 0, 0, 0, 0]
     (by intro r hr; simp at hr; subst hr; norm_num),
   roomCode_format.2.2.2.2.1 [Room.mk 0 "ABCDEF" RoomState.waiting "host"] []
     "u" "abcdef" "ABCDEF" (by decide)⟩

/-- Counterexample to C9 as stated: the alphabet
ABCDEFGHJKLMNPQRSTUVWXYZ23456789 has 32 characters, not 33. -/
theorem roomCode_alphabet_not_33 : ¬ (roomCodeChars.length = 33) := by decide

theorem debounceSends_burst (p : ℚ × ℤ) (rest : List (ℚ × ℤ))
    (h : List.Chain' (fun a b => b.1 < a.1 + 300) (p :: rest)) :
    debounceSends (p :: rest) =
      [((rest.getLastD p).1 + 300, (rest.getLastD p).2)] := by
  induction rest generalizing p with
  | nil => simp [debounceSends]
  | cons q rest2 ih =>
    rw [List.chain'_cons] at h
    have hq := ih q h.2
    simp only [debounceSends]
    rw [if_pos h.1, List.getLastD_cons]
    exact hq

/-- C8: whenever a burst of score updates arrives with every consecutive pair
of calls less than 300ms apart (in particular 5 rapid increments within a
300ms span), the debounced sync sends exactly one outbound update, scheduled
300ms after the last call and carrying the last (latest) score value;
intermediate values are superseded, not sent. -/
theorem debounce_coalesces (calls : List (ℚ × ℤ)) (hne : calls ≠ [])
    (hchain : List.Chain' (fun a b => b.1 < a.1 + 300) calls) :
    debounceSends calls =
      [((calls.getLast hne).1 + 300, (calls.getLast hne).2)] := by
  cases calls with
  | nil => exact absurd rfl hne
  | cons p rest =>
    rw [List.getLast_eq_getLastD p rest hne]
    exact debounceSends_burst p rest hchain

/-- Witness for C8's theorem: 5 score increments at times 0, 50, 100, 150,
200 (all within 300ms of their predecessor) coalesce to the single send
(500, 5) — one update, carrying the final score 5. -/
theorem debounce_coalesces_witness :
    debounceSends [(0, 1), (50, 2), (100, 3), (150, 4), (200, 5)] =
      [(500, 5)] := by
  rw [debounce_coalesces [(0, 1), (50, 2), (100, 3), (150, 4), (200, 5)]
    (by simp) (by norm_num [List.chain'_cons])]
  norm_num
